import Mathlib

/-!
Verification of the Cost Analysis & Alerting Engine of the
Cloud-Cost-Optimization-Dashboard repository.

Shallow embedding conventions:
* Money amounts and statistics are modelled as rationals (`ℚ`); the Python
  code computes on floats and stores `Decimal(str(round(x, 2)))`.
* `round(x, k)` is modelled by `roundk` below (scale, round to nearest
  integer, unscale).
* ISO-8601 timestamp strings compare lexicographically exactly as the
  instants they denote, so timestamps are modelled as integers (seconds)
  and calendar-date keys as naturals (day index) preserving that order.
* The code's z-score test `z = abs(cost - mean) / stdev > t` (with
  `stdev > 0` and `t ≥ 0`) is embedded square-free as
  `(cost - mean)^2 > t^2 * variance`; the lemma `zscore_sq_iff` below
  proves the two formulations equivalent over the reals.
-/

namespace CostDash

/-- Arithmetic mean of a list of rationals (`statistics.mean`); division by
zero on the empty list yields 0, but every call site guards the length. -/
def listMean (l : List ℚ) : ℚ := l.sum / l.length

/-- Sample variance (square of `statistics.stdev`, denominator n−1), with the
source's guard `stdev(costs) if len(costs) > 1 else 0`. -/
def sampleVar (l : List ℚ) : ℚ :=
  if l.length ≤ 1 then 0
  else (l.map (fun x => (x - listMean l) ^ 2)).sum / ((l.length : ℚ) - 1)

/-- Python `round(x, 2)` as used in `Decimal(str(round(x, 2)))`; ties are
negligible for the rational inputs considered here. -/
def round2 (x : ℚ) : ℚ := (round (x * 100) : ℤ) / 100

/-- Python `round(x, 4)` (used for `daily_change_rate`). -/
def round4 (x : ℚ) : ℚ := (round (x * 10000) : ℤ) / 10000

/-! ## Candidate alerts (`create_alert`, src/lambda/alerting/handler.py 418-447)

The wall-clock fields (`alert_id`, `timestamp`, `ttl`) and the constant
bookkeeping flags (`acknowledged=False`, `resolved=False`,
`notification_sent=False`, empty channel list) are set uniformly by
`create_alert` and are not needed by the evaluator-level claims; the
persisted-store model below carries timestamp and status explicitly. -/

structure CandAlert where
  alertType : String
  severity : String
  service : String
  region : String
  currentCost : ℚ
  threshold : ℚ
  status : String
  deriving DecidableEq, Repr

/-- Embedding of `create_alert` field assignment: costs and thresholds are
rounded to 2 decimals, status starts at active. -/
def create_alert (alertType severity service region : String)
    (currentCost threshold : ℚ) : CandAlert :=
  { alertType := alertType
    severity := severity
    service := service
    region := region
    currentCost := round2 currentCost
    threshold := round2 threshold
    status := "active" }

/-! ## Budget evaluator (`check_budget_alerts`, handler.py 239-301)

The month-to-date total and the configured `monthly_limit` are the two
inputs once the repository reads succeed; `if monthly_limit:` is Python
truthiness, i.e. the configured limit is present and nonzero. -/

/-- Embedding of the alert-emission core of `check_budget_alerts` for a
configured (nonzero) `monthly_limit` and month-to-date total. -/
def check_budget_alerts (monthlyLimit totalMonthlyCost : ℚ) : List CandAlert :=
  if monthlyLimit ≠ 0 then
    let percentageUsed : ℚ := totalMonthlyCost / monthlyLimit * 100
    if percentageUsed ≥ 100 then
      [create_alert "budget_exceeded" "critical" "Overall" "All"
        totalMonthlyCost monthlyLimit]
    else if percentageUsed ≥ 80 then
      [create_alert "budget_warning" "warning" "Overall" "All"
        totalMonthlyCost (monthlyLimit * (8 / 10))]
    else []
  else []

/-! ## Threshold evaluator, overall daily check
(`check_threshold_alerts`, handler.py 144-163)

`config['cost_thresholds']['daily']` is a dict severity → limit, iterated
with `.items()`; it is modelled as an association list whose keys are
distinct (dict keys). -/

/-- Embedding of the overall-daily loop of `check_threshold_alerts`: one
`threshold_breach` alert per configured (severity, limit) pair whose limit
the daily total strictly exceeds. -/
def check_threshold_alerts (dailyThresholds : List (String × ℚ))
    (totalDailyCost : ℚ) : List CandAlert :=
  (dailyThresholds.filter (fun p => totalDailyCost > p.2)).map
    (fun p => create_alert "threshold_breach" p.1 "Overall" "All"
      totalDailyCost p.2)

/-! ## Trend analyzer (`analyze_cost_trends`,
src/lambda/data_processing/handler.py 190-236)

The function first folds records into per-date sums and sorts the dates;
its analytic core, embedded here, operates on the resulting list of daily
costs in date order. -/

/-- The `numerator` local of handler.py line 217:
`sum((i - x_mean) * (costs[i] - y_mean) for i in range(n))`. -/
def olsNumerator (costs : List ℚ) : ℚ :=
  ((List.range costs.length).map
    (fun (i : ℕ) =>
      ((i : ℚ) - ((costs.length : ℚ) - 1) / 2) *
        (costs.getD i 0 - listMean costs))).sum

/-- The `denominator` local of handler.py line 218:
`sum((i - x_mean) ** 2 for i in range(n))`. -/
def olsDenominator (costs : List ℚ) : ℚ :=
  ((List.range costs.length).map
    (fun (i : ℕ) => ((i : ℚ) - ((costs.length : ℚ) - 1) / 2) ^ 2)).sum

/-- Ordinary least-squares slope over index 0..n−1 versus cost, exactly the
computation of handler.py 213-220 including the
`if denominator != 0 else 0` guard. -/
def olsSlope (costs : List ℚ) : ℚ :=
  if olsDenominator costs ≠ 0 then olsNumerator costs / olsDenominator costs
  else 0

structure Trend where
  trendDirection : String
  dailyChangeRate : ℚ
  percentChangeWeek : ℚ
  volatilitySq : ℚ
  trendStrength : ℚ
  deriving DecidableEq, Repr

/-- Embedding of `analyze_cost_trends` on the date-ordered daily cost list;
the code returns `{}` below 2 points, modelled as `none`. `volatilitySq`
is the population variance whose square root the code stores as
`volatility`. -/
def analyze_cost_trends (costs : List ℚ) : Option Trend :=
  if costs.length < 2 then none
  else
    let n := costs.length
    let slope := olsSlope costs
    let yMean := listMean costs
    let percentChange : ℚ :=
      if 7 ≤ n then
        let recentAvg := listMean (costs.drop (n - 7))
        let previousAvg :=
          if 14 ≤ n then listMean ((costs.drop (n - 14)).take 7)
          else listMean (costs.take (n - 7))
        if previousAvg > 0 then (recentAvg - previousAvg) / previousAvg * 100
        else 0
      else 0
    some
      { trendDirection :=
          if slope > 0 then "increasing"
          else if slope < 0 then "decreasing" else "stable"
        dailyChangeRate := round4 slope
        percentChangeWeek := round2 percentChange
        volatilitySq := (costs.map (fun c => (c - yMean) ^ 2)).sum / n
        trendStrength := min (|slope| * 10) 100 }

/-! ## Recommendation engine (`generate_optimization_recommendations`,
src/lambda/data_processing/handler.py 324-378)

The function first folds records into `resource_costs`, a dict keyed by
`resource_id` (so ids are distinct) holding total cost, service and region;
the embedding starts from that aggregated list in dict insertion order.
`sorted(..., reverse=True)` is Python's stable descending sort, embedded as
a stable insertion sort. -/

structure ResCost where
  resourceId : String
  service : String
  region : String
  totalCost : ℚ
  deriving DecidableEq, Repr

structure Recommendation where
  resourceId : String
  recommendationType : String
  service : String
  region : String
  currentCost : ℚ
  estimatedSavings : ℚ
  confidence : String
  priority : String
  status : String
  implemented : Bool
  deriving DecidableEq, Repr

/-- Field assignment of the recommendation dict of handler.py 349-367;
the wall-clock fields (`created_at`, `ttl`) and free-text fields are
omitted, savings are the code's `round(total_cost * 0.2, 2)`. -/
def mkRecommendation (r : ResCost) : Recommendation :=
  { resourceId := r.resourceId
    recommendationType := "cost_review"
    service := r.service
    region := r.region
    currentCost := round2 r.totalCost
    estimatedSavings := round2 (r.totalCost * (2 / 10))
    confidence := "medium"
    priority := if r.totalCost > 500 then "high" else "medium"
    status := "open"
    implemented := false }

/-- Stable insertion into a descending-by-cost list: the inserted element
precedes every later element of equal cost. -/
def insertDesc (x : ResCost) : List ResCost → List ResCost
  | [] => [x]
  | y :: l => if y.totalCost ≤ x.totalCost then x :: y :: l
              else y :: insertDesc x l

/-- Stable descending sort by `totalCost` (Python
`sorted(items, key=cost, reverse=True)`). -/
def sortDescByCost : List ResCost → List ResCost
  | [] => []
  | x :: l => insertDesc x (sortDescByCost l)

/-- Embedding of the emission loop of handler.py 345-369: top 10 resources
by total cost, those exceeding the fixed 100-unit minimum each yield one
recommendation. -/
def generate_optimization_recommendations
    (resourceCosts : List ResCost) : List Recommendation :=
  (((sortDescByCost resourceCosts).take 10).filter
    (fun r => r.totalCost > 100)).map mkRecommendation

/-! ## Anomaly detection (`detect_service_anomalies`,
src/lambda/alerting/handler.py 354-415, and `detect_cost_anomalies`,
src/lambda/data_processing/analysis_utils.py 78-134)

Both functions group records into `service_daily_costs[service]`, a dict
date → summed cost; the embeddings below take that per-service daily map
as an association list (dict keys, hence dates, are distinct) with dates
as naturals ordered like the ISO strings. The z-score comparison
`abs(cost - mean) / stdev > t` is embedded square-free as
`(cost - mean)^2 > t^2 * variance` (see `zscore_sq_iff`), which avoids the
irrational `stdev`; the severity cutoffs 3 and 2 become 9 and 4. The
`deviation` output field (`round(z_score, 2)`) is irrational and not
needed by any claim, so it is omitted. -/

/-- The sensitivity table of handler.py 377-382 with its dict-get default
2.5. -/
def sensitivityThreshold (s : String) : ℚ :=
  if s = "low" then 3
  else if s = "medium" then 5 / 2
  else if s = "high" then 2
  else 5 / 2

/-- Python `max(daily_costs.keys())` paired with the dict value at that key
(`daily_costs[latest_date]`); for distinct keys the fold returns exactly
that entry. -/
def maxDateEntry : List (ℕ × ℚ) → Option (ℕ × ℚ)
  | [] => none
  | p :: ps => some (ps.foldl (fun acc q => if acc.1 < q.1 then q else acc) p)

structure Anomaly where
  service : String
  date : ℕ
  currentCost : ℚ
  expectedCost : ℚ
  severity : String
  direction : String
  deriving DecidableEq, Repr

/-- Embedding of the per-service body of `detect_service_anomalies`
(handler.py 385-413): with fewer than 7 days the service is skipped; else
the latest day is anomalous when `stdev > 0` and its z-score exceeds the
sensitivity threshold, with severity critical (z>3) / warning (z>2) / info
and direction spike when the latest cost exceeds the mean. -/
def detect_service_anomalies_for (service : String) (daily : List (ℕ × ℚ))
    (sensitivity : String) : List Anomaly :=
  let costs := daily.map Prod.snd
  if costs.length < 7 then []
  else
    let t := sensitivityThreshold sensitivity
    let m := listMean costs
    let v := sampleVar costs
    match maxDateEntry daily with
    | none => []
    | some latest =>
      if 0 < v ∧ (latest.2 - m) ^ 2 > t ^ 2 * v then
        [{ service := service
           date := latest.1
           currentCost := round2 latest.2
           expectedCost := round2 m
           severity :=
             if (latest.2 - m) ^ 2 > 9 * v then "critical"
             else if (latest.2 - m) ^ 2 > 4 * v then "warning" else "info"
           direction := if latest.2 > m then "spike" else "drop" }]
      else []

structure AnalysisAnomaly where
  service : String
  date : ℕ
  cost : ℚ
  expectedCost : ℚ
  severity : String
  atype : String
  deriving DecidableEq, Repr

/-- Embedding of the per-service body of `detect_cost_anomalies`
(analysis_utils.py 107-132): same statistics, but every day of the series
is tested, severities are high/medium/low and the direction field is named
`type`. The final cross-service `sorted(..., by deviation)` only reorders
the result and is omitted. -/
def detect_cost_anomalies_for (service : String) (daily : List (ℕ × ℚ))
    (sensitivity : String) : List AnalysisAnomaly :=
  let costs := daily.map Prod.snd
  if costs.length < 7 then []
  else
    let t := sensitivityThreshold sensitivity
    let m := listMean costs
    let v := sampleVar costs
    daily.filterMap (fun p =>
      if 0 < v ∧ (p.2 - m) ^ 2 > t ^ 2 * v then
        some
          { service := service
            date := p.1
            cost := round2 p.2
            expectedCost := round2 m
            severity :=
              if (p.2 - m) ^ 2 > 9 * v then "high"
              else if (p.2 - m) ^ 2 > 4 * v then "medium" else "low"
            atype := if p.2 > m then "spike" else "drop" }
      else none)

/-- The 7-day series of the spec's concrete anomaly scenario:
six days at 100 followed by one day at 300. -/
def series7 : List (ℕ × ℚ) :=
  [(0, 100), (1, 100), (2, 100), (3, 100), (4, 100), (5, 100), (6, 300)]

/-! ## Alert store and `process_alerts`
(src/lambda/alerting/handler.py 450-513 and 516-555)

The alerts table is modelled as a list of stored rows; ISO timestamps as
integer seconds (lexicographic string order = instant order), the one-hour
dedup window as 3600. Repository/notifier effects are modelled by a
`RunOutcome` oracle per candidate recording whether the dedup scan
(`alerts_table.scan`), the persist (`alerts_table.put_item`) and the
notification (`sns.publish` + `update_item`) succeed in this run:
`store_alert` re-raises its exception (caught by the per-alert handler in
`process_alerts`), while `send_alert_notification` swallows its own
exceptions, so a notification failure does not affect the processed
count. -/

structure StoredAlert where
  alertType : String
  service : String
  region : String
  timestamp : ℤ
  status : String
  notificationSent : Bool
  deriving DecidableEq, Repr

structure Candidate where
  alertType : String
  service : String
  region : String
  deriving DecidableEq, Repr

structure RunOutcome where
  queryOk : Bool
  storeOk : Bool
  notifyOk : Bool
  deriving DecidableEq, Repr

/-- The (alert_type, service, region) dedup identity of handler.py
489-491. -/
def matchesKey (c : Candidate) (s : StoredAlert) : Bool :=
  s.alertType == c.alertType && s.service == c.service &&
    s.region == c.region

/-- Embedding of `is_duplicate_alert` (handler.py 480-500): scan for rows
of the same key with `timestamp > now − 1h` and status active; on a scan
error the except branch returns False. -/
def is_duplicate_alert (now : ℤ) (c : Candidate) (queryOk : Bool)
    (store : List StoredAlert) : Bool :=
  if queryOk then
    store.any (fun s => matchesKey c s && decide (now - 3600 < s.timestamp)
      && (s.status == "active"))
  else false

/-- The row persisted for a fresh candidate (`create_alert` fields relevant
to the store: status active, notification_sent false, timestamp now). -/
def mkStoredAlert (now : ℤ) (c : Candidate) : StoredAlert :=
  { alertType := c.alertType
    service := c.service
    region := c.region
    timestamp := now
    status := "active"
    notificationSent := false }

/-- The `update_item` of `send_alert_notification` (handler.py 540-550):
the row keyed by the content-addressed alert_id and timestamp gets
`notification_sent = true`. -/
def markNotified (now : ℤ) (c : Candidate) (store : List StoredAlert) :
    List StoredAlert :=
  store.map (fun s =>
    if matchesKey c s && (s.timestamp == now) then
      { s with notificationSent := true }
    else s)

/-- One iteration of the `process_alerts` loop (handler.py 459-475) for a
single candidate: dedup-check, persist, notify; the boolean is whether
`processed_count` was incremented. -/
def processOne (now : ℤ) (c : Candidate) (o : RunOutcome)
    (store : List StoredAlert) : List StoredAlert × Bool :=
  if is_duplicate_alert now c o.queryOk store then (store, false)
  else if o.storeOk then
    let withNew := store ++ [mkStoredAlert now c]
    (if o.notifyOk then markNotified now c withNew else withNew, true)
  else (store, false)

/-- Embedding of `process_alerts` (handler.py 450-477): the per-candidate
try/except isolates each iteration; returns the final store and the
processed count. -/
def process_alerts (now : ℤ) (cands : List (Candidate × RunOutcome))
    (store : List StoredAlert) : List StoredAlert × ℕ :=
  match cands with
  | [] => (store, 0)
  | (c, o) :: rest =>
    ((process_alerts now rest (processOne now c o store).1).1,
     (process_alerts now rest (processOne now c o store).1).2 +
       (if (processOne now c o store).2 then 1 else 0))

/-- Number of persisted rows with a given (type, service, region) key. -/
def countKey (c : Candidate) (store : List StoredAlert) : ℕ :=
  (store.filter (fun s => matchesKey c s)).length

/-! ## Alert lifecycle (`acknowledge_alert` / `resolve_alert`,
src/lambda/alerting/notification_utils.py 288-354)

Both operations are unconditional `update_item` calls on the row; the
fields below are exactly those touched by the two update expressions. -/

structure AlertRec where
  status : String
  acknowledged : Bool
  acknowledgedBy : Option String
  acknowledgedAt : Option ℤ
  resolved : Bool
  resolvedBy : Option String
  resolvedAt : Option ℤ
  resolutionNotes : Option String
  deriving DecidableEq, Repr

/-- Embedding of `acknowledge_alert`: sets acknowledged, by, at and
status = acknowledged with no precondition on the current status. -/
def acknowledge_alert (now : ℤ) (who : String) (a : AlertRec) : AlertRec :=
  { a with
    acknowledged := true
    acknowledgedBy := some who
    acknowledgedAt := some now
    status := "acknowledged" }

/-- Embedding of `resolve_alert`: sets resolved, at and status = resolved,
and by/notes only when truthy, with no precondition on the current
status. -/
def resolve_alert (now : ℤ) (who : Option String) (notes : Option String)
    (a : AlertRec) : AlertRec :=
  let base :=
    { a with resolved := true, resolvedAt := some now, status := "resolved" }
  let withBy :=
    match who with
    | some w => { base with resolvedBy := some w }
    | none => base
  match notes with
  | some n => { withBy with resolutionNotes := some n }
  | none => withBy

inductive AlertOp where
  | ack (now : ℤ) (who : String)
  | res (now : ℤ) (who : Option String) (notes : Option String)
  deriving DecidableEq, Repr

/-- Apply one operator action to an alert row. -/
def applyOp (a : AlertRec) : AlertOp → AlertRec
  | .ack now who => acknowledge_alert now who a
  | .res now who notes => resolve_alert now who notes a

/-- Apply a sequence of acknowledge/resolve operations in order. -/
def applyOps (a : AlertRec) (ops : List AlertOp) : AlertRec :=
  ops.foldl applyOp a

/-- A freshly created alert row (status active, nothing acknowledged or
resolved), as persisted by `create_alert`. -/
def freshAlertRec : AlertRec :=
  { status := "active"
    acknowledged := false
    acknowledgedBy := none
    acknowledgedAt := none
    resolved := false
    resolvedBy := none
    resolvedAt := none
    resolutionNotes := none }

end CostDash

namespace CostDash

/-- C2: the budget evaluator emits exactly one alert when the month-to-date
percentage is ≥ 80 and none below: a critical `budget_exceeded` at ≥ 100, a
warning `budget_warning` on [80, 100), never both in one evaluation. -/
theorem budget_alert_checkpoints (monthlyLimit totalMonthlyCost : ℚ)
    (hpos : 0 < monthlyLimit) :
    (totalMonthlyCost / monthlyLimit * 100 ≥ 100 →
      check_budget_alerts monthlyLimit totalMonthlyCost =
        [create_alert "budget_exceeded" "critical" "Overall" "All"
          totalMonthlyCost monthlyLimit]) ∧
    (80 ≤ totalMonthlyCost / monthlyLimit * 100 ∧
        totalMonthlyCost / monthlyLimit * 100 < 100 →
      check_budget_alerts monthlyLimit totalMonthlyCost =
        [create_alert "budget_warning" "warning" "Overall" "All"
          totalMonthlyCost (monthlyLimit * (8 / 10))]) ∧
    (totalMonthlyCost / monthlyLimit * 100 < 80 →
      check_budget_alerts monthlyLimit totalMonthlyCost = []) ∧
    (totalMonthlyCost / monthlyLimit * 100 ≥ 80 →
      (check_budget_alerts monthlyLimit totalMonthlyCost).length = 1) := by
  have hne : monthlyLimit ≠ 0 := ne_of_gt hpos
  refine ⟨?_, ?_, ?_, ?_⟩
  · intro h100
    simp only [check_budget_alerts, if_pos hne, if_pos h100]
  · rintro ⟨h80, h100⟩
    simp only [check_budget_alerts, if_pos hne,
      if_neg (not_le.mpr h100), if_pos h80]
  · intro h80
    have h100 : ¬ totalMonthlyCost / monthlyLimit * 100 ≥ 100 :=
      not_le.mpr (lt_of_lt_of_le h80 (by norm_num))
    have h80n : ¬ totalMonthlyCost / monthlyLimit * 100 ≥ 80 := not_le.mpr h80
    simp only [check_budget_alerts, if_pos hne]
    rw [if_neg h100, if_neg h80n]
  · intro h80
    by_cases h100 : totalMonthlyCost / monthlyLimit * 100 ≥ 100
    · simp only [check_budget_alerts, if_pos hne, if_pos h100,
        List.length_singleton]
    · simp only [check_budget_alerts, if_pos hne, if_neg h100,
        if_pos h80, List.length_singleton]

/-- C2 witness: limit 100 with totals 79, 80, 100 exercise the three
checkpoints (79% → none, 80% → one warning, 100% → one exceeded). -/
theorem budget_alert_checkpoints_witness :
    (0 < (100 : ℚ) ∧
      check_budget_alerts 100 79 = [] ∧
      check_budget_alerts 100 80 =
        [create_alert "budget_warning" "warning" "Overall" "All" 80 (100 * (8 / 10))] ∧
      check_budget_alerts 100 100 =
        [create_alert "budget_exceeded" "critical" "Overall" "All" 100 100]) := by
  have h1 := budget_alert_checkpoints 100 79 (by norm_num)
  have h2 := budget_alert_checkpoints 100 80 (by norm_num)
  have h3 := budget_alert_checkpoints 100 100 (by norm_num)
  refine ⟨by norm_num, ?_, ?_, ?_⟩
  · exact h1.2.2.1 (by norm_num)
  · exact h2.2.1 ⟨by norm_num, by norm_num⟩
  · exact h3.1 (by norm_num)

/-- Unfolding of the threshold evaluator on a cons cell. -/
theorem check_threshold_cons (p : String × ℚ) (th : List (String × ℚ))
    (total : ℚ) :
    check_threshold_alerts (p :: th) total =
      (if total > p.2 then
        [create_alert "threshold_breach" p.1 "Overall" "All" total p.2]
       else []) ++ check_threshold_alerts th total := by
  by_cases h : total > p.2 <;>
    simp [check_threshold_alerts, List.filter_cons, h]

/-- Helper: a severity that is not a key of the configuration never appears
among the generated threshold alerts. -/
theorem check_threshold_filter_not_mem (th : List (String × ℚ)) (total : ℚ)
    (sev : String) (hs : sev ∉ th.map Prod.fst) :
    (check_threshold_alerts th total).filter (fun a => a.severity == sev) = [] := by
  induction th with
  | nil => rfl
  | cons p rest ih =>
    have hps : p.1 ≠ sev := by
      intro h
      exact hs (h ▸ List.mem_map_of_mem Prod.fst (List.mem_cons_self p rest))
    have hrest : sev ∉ rest.map Prod.fst := fun h => hs (List.mem_cons_of_mem _ h)
    rw [check_threshold_cons, List.filter_append, ih hrest]
    by_cases hgt : total > p.2
    · rw [if_pos hgt]
      simp [create_alert, List.filter_cons, hps]
    · rw [if_neg hgt]
      simp

/-- C3: a `threshold_breach` alert at a configured severity fires iff the
overall daily total strictly exceeds that severity's limit, each configured
severity evaluated independently; with daily thresholds
warning→100, critical→200 and total 150, exactly one alert fires, at
severity warning. -/
theorem threshold_breach_iff_exceeds :
    (∀ (th : List (String × ℚ)) (total : ℚ),
      (th.map Prod.fst).Nodup →
      ∀ sev lim, (sev, lim) ∈ th →
        (check_threshold_alerts th total).filter (fun a => a.severity == sev) =
          if total > lim then
            [create_alert "threshold_breach" sev "Overall" "All" total lim]
          else []) ∧
    check_threshold_alerts [("warning", 100), ("critical", 200)] 150 =
      [create_alert "threshold_breach" "warning" "Overall" "All" 150 100] := by
  constructor
  · intro th total hnd sev lim hmem
    induction th with
    | nil => cases hmem
    | cons p rest ih =>
      have hnd1 : p.1 ∉ rest.map Prod.fst := (List.nodup_cons.mp hnd).1
      have hnd2 : (rest.map Prod.fst).Nodup := (List.nodup_cons.mp hnd).2
      rw [check_threshold_cons, List.filter_append]
      rcases List.mem_cons.mp hmem with heq | htail
      · cases heq
        rw [check_threshold_filter_not_mem rest total sev hnd1]
        by_cases hgt : total > lim
        · rw [if_pos hgt]
          simp [create_alert, List.filter_cons]
        · rw [if_neg hgt]
          simp
      · have hsev : p.1 ≠ sev := by
          intro h
          exact hnd1 (h ▸ List.mem_map_of_mem Prod.fst htail)
        rw [ih hnd2 htail]
        by_cases hgt : total > p.2
        · rw [if_pos hgt]
          simp [create_alert, List.filter_cons, hsev]
        · rw [if_neg hgt]
          simp
  · rw [check_threshold_cons, check_threshold_cons,
      if_pos (by norm_num : (150 : ℚ) > 100),
      if_neg (by norm_num : ¬ (150 : ℚ) > 200)]
    simp [check_threshold_alerts]

/-- C3 witness: instantiate the iff at the concrete two-entry daily
configuration with total 150. -/
theorem threshold_breach_iff_exceeds_witness :
    (check_threshold_alerts [("warning", 100), ("critical", 200)] 150).filter
        (fun a => a.severity == "warning") =
      [create_alert "threshold_breach" "warning" "Overall" "All" 150 100] := by
  have h := threshold_breach_iff_exceeds.1 [("warning", 100), ("critical", 200)]
    150 (by simp) "warning" 100 (by norm_num)
  rw [h, if_pos (by norm_num)]

/-- Helper: the mean of a nonempty constant list is the constant. -/
theorem listMean_const (l : List ℚ) (c : ℚ) (hne : l ≠ [])
    (h : ∀ x ∈ l, x = c) : listMean l = c := by
  have hrep : l = List.replicate l.length c := List.eq_replicate_length.mpr h
  have hlen : (l.length : ℚ) ≠ 0 := by
    have : l.length ≠ 0 := fun h0 => hne (List.length_eq_zero.mp h0)
    exact_mod_cast this
  unfold listMean
  conv_lhs => rw [hrep, List.sum_replicate]
  rw [nsmul_eq_mul]
  field_simp

/-- Helper: the OLS numerator vanishes on a constant series. -/
theorem olsNumerator_const (costs : List ℚ) (c : ℚ) (hne : costs ≠ [])
    (h : ∀ x ∈ costs, x = c) : olsNumerator costs = 0 := by
  apply List.sum_eq_zero
  intro x hx
  obtain ⟨i, hi, rfl⟩ := List.mem_map.mp hx
  have hilt : i < costs.length := List.mem_range.mp hi
  have hgd : costs.getD i 0 = c := by
    rw [List.getD_eq_getElem _ _ hilt]
    exact h _ (List.getElem_mem hilt)
  rw [hgd, listMean_const costs c hne h, sub_self, mul_zero]

/-- Helper: the direction emitted by the trend analyzer is the sign-based
if-chain on the OLS slope. -/
theorem analyze_trendDirection (costs : List ℚ) (h2 : 2 ≤ costs.length) :
    (analyze_cost_trends costs).map Trend.trendDirection =
      some (if 0 < olsSlope costs then "increasing"
            else if olsSlope costs < 0 then "decreasing" else "stable") := by
  simp [analyze_cost_trends, not_lt.mpr h2]

/-- C6: on every constant daily series with at least 2 points the trend
analyzer computes slope 0 and direction stable; in general the direction is
increasing iff the slope is positive, decreasing iff negative and stable iff
exactly zero. -/
theorem trend_direction_spec :
    (∀ (costs : List ℚ) (c : ℚ), 2 ≤ costs.length → (∀ x ∈ costs, x = c) →
      olsSlope costs = 0 ∧
      (analyze_cost_trends costs).map Trend.trendDirection = some "stable") ∧
    (∀ (costs : List ℚ) (t : Trend), analyze_cost_trends costs = some t →
      ((t.trendDirection = "increasing" ↔ 0 < olsSlope costs) ∧
       (t.trendDirection = "decreasing" ↔ olsSlope costs < 0) ∧
       (t.trendDirection = "stable" ↔ olsSlope costs = 0))) := by
  constructor
  · intro costs c hlen h
    have hne : costs ≠ [] := by
      intro h0
      rw [h0] at hlen
      simp at hlen
    have hslope : olsSlope costs = 0 := by
      unfold olsSlope
      rw [olsNumerator_const costs c hne h]
      by_cases hd : olsDenominator costs ≠ 0 <;> simp [hd]
    refine ⟨hslope, ?_⟩
    have hnotlt : ¬ costs.length < 2 := not_lt.mpr hlen
    simp [analyze_cost_trends, hnotlt, hslope]
  · intro costs t ht
    by_cases hlt : costs.length < 2
    · simp [analyze_cost_trends, hlt] at ht
    · have hdir : t.trendDirection =
          if 0 < olsSlope costs then "increasing"
          else if olsSlope costs < 0 then "decreasing" else "stable" := by
        have := analyze_trendDirection costs (not_lt.mp hlt)
        rw [ht] at this
        simpa using this
      rcases lt_trichotomy (olsSlope costs) 0 with hs | hs | hs
      · rw [if_neg (not_lt.mpr hs.le), if_pos hs] at hdir
        exact ⟨iff_of_false (by rw [hdir]; decide) (not_lt.mpr hs.le),
          iff_of_true hdir hs,
          iff_of_false (by rw [hdir]; decide)
            (fun h => absurd (h ▸ hs) (lt_irrefl 0))⟩
      · rw [if_neg (not_lt.mpr hs.ge), if_neg (not_lt.mpr hs.le)] at hdir
        exact ⟨iff_of_false (by rw [hdir]; decide)
            (fun h => absurd (hs ▸ h) (lt_irrefl 0)),
          iff_of_false (by rw [hdir]; decide)
            (fun h => absurd (hs ▸ h) (lt_irrefl 0)),
          iff_of_true hdir hs⟩
      · rw [if_pos hs] at hdir
        exact ⟨iff_of_true hdir hs,
          iff_of_false (by rw [hdir]; decide) (not_lt.mpr hs.le),
          iff_of_false (by rw [hdir]; decide)
            (fun h => absurd (h ▸ hs) (lt_irrefl 0))⟩

/-- C6 witness: the constant two-point series [5, 5] has slope 0 and
direction stable. -/
theorem trend_direction_spec_witness :
    olsSlope [5, 5] = 0 ∧
    (analyze_cost_trends [5, 5]).map Trend.trendDirection = some "stable" :=
  trend_direction_spec.1 [5, 5] 5 (by simp) (by
    intro x hx
    rcases List.mem_cons.mp hx with h | h
    · exact h
    · simpa using h)

/-- Helper: `round2` is the identity on integers. -/
theorem round2_intCast (n : ℤ) : round2 (n : ℚ) = n := by
  unfold round2
  rw [show ((n : ℚ) * 100) = ((n * 100 : ℤ) : ℚ) by push_cast; ring,
    round_intCast]
  push_cast
  field_simp

/-- Helper: `insertDesc` permutes the element into the list. -/
theorem insertDesc_perm (x : ResCost) (l : List ResCost) :
    (insertDesc x l).Perm (x :: l) := by
  induction l with
  | nil => exact List.Perm.refl _
  | cons y rest ih =>
    by_cases h : y.totalCost ≤ x.totalCost
    · rw [insertDesc, if_pos h]
    · rw [insertDesc, if_neg h]
      exact ((ih.cons y).trans (List.Perm.swap x y rest))

/-- Helper: the sort used for resource ranking is a permutation. -/
theorem sortDescByCost_perm (l : List ResCost) :
    (sortDescByCost l).Perm l := by
  induction l with
  | nil => exact List.Perm.refl _
  | cons x rest ih =>
    exact (insertDesc_perm x (sortDescByCost rest)).trans (ih.cons x)

/-- Helper: the sort used for resource ranking is descending in cost. -/
theorem sortDescByCost_sorted (l : List ResCost) :
    (sortDescByCost l).Sorted (fun a b => b.totalCost ≤ a.totalCost) := by
  induction l with
  | nil => exact List.sorted_nil
  | cons x rest ih =>
    rw [sortDescByCost]
    generalize hs : sortDescByCost rest = s at ih
    clear hs
    induction s with
    | nil => simp [insertDesc]
    | cons y ys ihy =>
      by_cases h : y.totalCost ≤ x.totalCost
      · rw [insertDesc, if_pos h, List.sorted_cons]
        refine ⟨?_, ih⟩
        intro b hb
        rcases List.mem_cons.mp hb with rfl | hb
        · exact h
        · exact le_trans ((List.sorted_cons.mp ih).1 b hb) h
      · rw [insertDesc, if_neg h, List.sorted_cons]
        have hys := (List.sorted_cons.mp ih).2
        refine ⟨?_, ihy hys⟩
        intro b hb
        have hb2 := (insertDesc_perm x ys).mem_iff.mp hb
        rcases List.mem_cons.mp hb2 with rfl | hb3
        · exact le_of_not_le h
        · exact (List.sorted_cons.mp ih).1 b hb3

/-- Helper: recommendations built from resources whose id differs from a
fixed id are all removed by an id filter. -/
theorem recs_filter_other_id (l : List ResCost) (s : String)
    (hs : s ∉ l.map ResCost.resourceId) :
    ((l.filter (fun x => x.totalCost > 100)).map mkRecommendation).filter
      (fun q => q.resourceId == s) = [] := by
  rw [List.filter_eq_nil_iff]
  intro q hq
  obtain ⟨y, hy, rfl⟩ := List.mem_map.mp hq
  have hyl : y ∈ l := List.mem_of_mem_filter hy
  have : y.resourceId ≠ s := by
    intro h
    exact hs (h ▸ List.mem_map_of_mem ResCost.resourceId hyl)
  simpa [mkRecommendation] using this

/-- Helper: with distinct resource ids, a qualifying resource contributes
exactly one recommendation to the filtered emission list. -/
theorem recs_filter_unique (l : List ResCost) (r : ResCost) :
    (l.map ResCost.resourceId).Nodup → r ∈ l → r.totalCost > 100 →
    ((l.filter (fun x => x.totalCost > 100)).map mkRecommendation).filter
      (fun q => q.resourceId == r.resourceId) = [mkRecommendation r] := by
  induction l with
  | nil =>
    intro _ hmem _
    cases hmem
  | cons x rest ih =>
    intro hnd hmem hc
    have hx : x.resourceId ∉ rest.map ResCost.resourceId :=
      (List.nodup_cons.mp hnd).1
    have hrest : (rest.map ResCost.resourceId).Nodup :=
      (List.nodup_cons.mp hnd).2
    rcases List.mem_cons.mp hmem with rfl | hmemr
    · rw [List.filter_cons, if_pos (by simpa using hc), List.map_cons,
        List.filter_cons, if_pos (by simp [mkRecommendation]),
        recs_filter_other_id rest _ hx]
    · have hxr : x.resourceId ≠ r.resourceId := by
        intro h
        exact hx (h ▸ List.mem_map_of_mem ResCost.resourceId hmemr)
      by_cases hpx : x.totalCost > 100
      · rw [List.filter_cons, if_pos (by simpa using hpx), List.map_cons,
          List.filter_cons, if_neg (by simpa [mkRecommendation] using hxr)]
        exact ih hrest hmemr hc
      · rw [List.filter_cons, if_neg (by simpa using hpx)]
        exact ih hrest hmemr hc

/-- C8: each of the top-10 resources by total cost whose cost exceeds 100
yields exactly one recommendation, with confidence medium, priority high
iff cost exceeds 500 (else medium), and estimated savings the rounded 20%
of its cost. -/
theorem recommendation_top10_spec (resourceCosts : List ResCost)
    (r : ResCost)
    (hnd : (resourceCosts.map ResCost.resourceId).Nodup)
    (hmem : r ∈ (sortDescByCost resourceCosts).take 10)
    (hcost : r.totalCost > 100) :
    (generate_optimization_recommendations resourceCosts).filter
        (fun q => q.resourceId == r.resourceId) = [mkRecommendation r] ∧
    (mkRecommendation r).confidence = "medium" ∧
    (mkRecommendation r).priority =
      (if r.totalCost > 500 then "high" else "medium") ∧
    (mkRecommendation r).estimatedSavings = round2 (r.totalCost * (2 / 10)) := by
  refine ⟨?_, rfl, rfl, rfl⟩
  have hndsort : ((sortDescByCost resourceCosts).map ResCost.resourceId).Nodup :=
    (((sortDescByCost_perm resourceCosts).map ResCost.resourceId).nodup_iff).mpr hnd
  have hndl : (((sortDescByCost resourceCosts).take 10).map
      ResCost.resourceId).Nodup := by
    rw [List.map_take]
    exact List.Nodup.sublist (List.take_sublist _ _) hndsort
  exact recs_filter_unique _ r hndl hmem hcost

/-- C8 witness: a single resource with cost 600 is in the top 10, exceeds
the 100-unit minimum, and its recommendation has priority high and
estimated savings 120 (20% of 600). -/
theorem recommendation_top10_spec_witness :
    (generate_optimization_recommendations
        [⟨"i-123", "EC2", "us-east-1", 600⟩]).filter
        (fun q => q.resourceId == "i-123") =
      [mkRecommendation ⟨"i-123", "EC2", "us-east-1", 600⟩] ∧
    (mkRecommendation ⟨"i-123", "EC2", "us-east-1", 600⟩).priority = "high" ∧
    (mkRecommendation ⟨"i-123", "EC2", "us-east-1", 600⟩).estimatedSavings
      = 120 := by
  have h := recommendation_top10_spec [⟨"i-123", "EC2", "us-east-1", 600⟩]
    ⟨"i-123", "EC2", "us-east-1", 600⟩ (by simp)
    (by simp [sortDescByCost, insertDesc]) (by norm_num)
  refine ⟨h.1, ?_, ?_⟩
  · rw [h.2.2.1]
    norm_num
  · rw [h.2.2.2]
    rw [show ((600 : ℚ) * (2 / 10)) = ((120 : ℤ) : ℚ) by norm_num,
      round2_intCast]
    norm_num

/-- The squared z-score test agrees with the code's `abs(x - m) / s > t`
formulation when `s = Real.sqrt v`, `v ≥ 0`, `t ≥ 0`: justification for the
square-free embedding of anomaly detection. -/
theorem zscore_sq_iff (x m v t : ℝ) (hv : 0 ≤ v) (ht : 0 ≤ t) :
    ((x - m) ^ 2 > t ^ 2 * v) ↔ |x - m| > t * Real.sqrt v := by
  have h1 : |x - m| = Real.sqrt ((x - m) ^ 2) := (Real.sqrt_sq_eq_abs _).symm
  have h2 : t * Real.sqrt v = Real.sqrt (t ^ 2 * v) := by
    rw [Real.sqrt_mul (by positivity) v, Real.sqrt_sq ht]
  rw [h1, h2]
  constructor
  · intro h
    exact Real.sqrt_lt_sqrt (by positivity) h
  · intro h
    by_contra hle
    push_neg at hle
    exact absurd (Real.sqrt_le_sqrt hle) (not_le.mpr h)

/-- Helper: the sample variance of a constant list is zero. -/
theorem sampleVar_const (l : List ℚ) (c : ℚ) (h : ∀ x ∈ l, x = c) :
    sampleVar l = 0 := by
  unfold sampleVar
  by_cases hl : l.length ≤ 1
  · rw [if_pos hl]
  · rw [if_neg hl]
    have hne : l ≠ [] := by
      intro h0
      rw [h0] at hl
      simp at hl
    have hz : (l.map (fun x => (x - listMean l) ^ 2)).sum = 0 := by
      apply List.sum_eq_zero
      intro y hy
      obtain ⟨x, hx, rfl⟩ := List.mem_map.mp hy
      rw [h x hx, listMean_const l c hne h, sub_self]
      ring
    rw [hz, zero_div]

/-- C4: on a per-service series with zero variance (all daily costs equal),
neither anomaly detector emits any anomaly, for every sensitivity
setting. -/
theorem anomaly_zero_variance (service sensitivity : String)
    (daily : List (ℕ × ℚ)) (c : ℚ) (h : ∀ p ∈ daily, p.2 = c) :
    detect_service_anomalies_for service daily sensitivity = [] ∧
    detect_cost_anomalies_for service daily sensitivity = [] := by
  have hconst : ∀ x ∈ daily.map Prod.snd, x = c := by
    intro x hx
    obtain ⟨p, hp, rfl⟩ := List.mem_map.mp hx
    exact h p hp
  have hv : sampleVar (daily.map Prod.snd) = 0 := sampleVar_const _ c hconst
  constructor
  · unfold detect_service_anomalies_for
    by_cases hlen : (daily.map Prod.snd).length < 7
    · rw [if_pos hlen]
    · rw [if_neg hlen]
      cases hmax : maxDateEntry daily with
      | none => rfl
      | some latest =>
        rw [hv]
        simp
  · unfold detect_cost_anomalies_for
    by_cases hlen : (daily.map Prod.snd).length < 7
    · rw [if_pos hlen]
    · rw [if_neg hlen]
      rw [hv]
      simp

/-- C4 witness: a 7-day constant series at cost 50 produces no anomaly at
medium sensitivity in either detector. -/
theorem anomaly_zero_variance_witness :
    detect_service_anomalies_for "EC2"
      [(0, 50), (1, 50), (2, 50), (3, 50), (4, 50), (5, 50), (6, 50)]
      "medium" = [] ∧
    detect_cost_anomalies_for "EC2"
      [(0, 50), (1, 50), (2, 50), (3, 50), (4, 50), (5, 50), (6, 50)]
      "medium" = [] := by
  refine anomaly_zero_variance "EC2" "medium" _ 50 ?_
  intro p hp
  fin_cases hp <;> rfl

/-- Helper: the statistics of the spec's 7-day scenario series. -/
theorem series7_stats :
    listMean (series7.map Prod.snd) = 900 / 7 ∧
    sampleVar (series7.map Prod.snd) = 40000 / 7 := by
  constructor
  · norm_num [series7, listMean]
  · norm_num [series7, sampleVar, listMean]

/-- Helper: at medium sensitivity (z-threshold 2.5) the 7-day scenario
series produces no anomaly: the squared deviation (1200/7)^2 does not
exceed (5/2)^2 times the sample variance 40000/7. -/
theorem series7_medium_eval :
    detect_service_anomalies_for "EC2" series7 "medium" = [] := by
  have hm := series7_stats.1
  have hv := series7_stats.2
  unfold detect_service_anomalies_for
  rw [if_neg (by norm_num [series7])]
  have hmax : maxDateEntry series7 = some (6, 300) := by
    norm_num [series7, maxDateEntry]
  have hsens : sensitivityThreshold "medium" = 5 / 2 := by
    unfold sensitivityThreshold
    rw [if_neg (by decide), if_pos rfl]
  rw [hmax, hm, hv]
  norm_num [hsens]

/-- Helper: at high sensitivity (z-threshold 2.0) the 7-day scenario series
produces exactly one anomaly, on the last day, direction spike, severity
warning. -/
theorem series7_high_eval :
    detect_service_anomalies_for "EC2" series7 "high" =
      [{ service := "EC2", date := 6, currentCost := 300,
         expectedCost := 12857 / 100, severity := "warning",
         direction := "spike" }] := by
  have hm := series7_stats.1
  have hv := series7_stats.2
  have h300 : round2 (300 : ℚ) = 300 := by
    rw [show ((300 : ℚ)) = ((300 : ℤ) : ℚ) by norm_num, round2_intCast]
  have hexp : round2 (900 / 7 : ℚ) = 12857 / 100 := by
    unfold round2
    rw [round_eq]
    rw [show (900 / 7 * 100 + 1 / 2 : ℚ) = 180007 / 14 by norm_num]
    norm_num
  unfold detect_service_anomalies_for
  rw [if_neg (by norm_num [series7])]
  have hmax : maxDateEntry series7 = some (6, 300) := by
    norm_num [series7, maxDateEntry]
  have hsens : sensitivityThreshold "high" = 2 := by
    unfold sensitivityThreshold
    rw [if_neg (by decide), if_neg (by decide), if_pos rfl]
  rw [hmax, hm, hv]
  norm_num [hsens, h300, hexp]

/-- C5 counterexample: on the series [100,100,100,100,100,100,300] at
sensitivity medium (threshold 5/2) the detector emits no anomaly, because
the sample z-score is 6/sqrt 7 ≈ 2.27 < 2.5; the claim's "exactly one
anomaly" is false on the code. -/
theorem anomaly_seven_day_medium_counterexample :
    detect_service_anomalies_for "EC2" series7 "medium" = [] ∧
    sensitivityThreshold "medium" = 5 / 2 :=
  ⟨series7_medium_eval, by
    unfold sensitivityThreshold
    rw [if_neg (by decide), if_pos rfl]⟩

/-- C5 amended: on the 7-day series [100,...,100,300] the detector emits no
anomaly at medium sensitivity; at high sensitivity (threshold 2.0) it emits
exactly one anomaly, for the 7th (most recent) day, direction spike
(severity warning). -/
theorem anomaly_seven_day_amended :
    detect_service_anomalies_for "EC2" series7 "medium" = [] ∧
    detect_service_anomalies_for "EC2" series7 "high" =
      [{ service := "EC2", date := 6, currentCost := 300,
         expectedCost := 12857 / 100, severity := "warning",
         direction := "spike" }] :=
  ⟨series7_medium_eval, series7_high_eval⟩

/-- Helper: a key-preserving row transformation does not change key
counts. -/
theorem countKey_map (c : Candidate) (f : StoredAlert → StoredAlert)
    (hf : ∀ s, matchesKey c (f s) = matchesKey c s) (l : List StoredAlert) :
    countKey c (l.map f) = countKey c l := by
  induction l with
  | nil => rfl
  | cons s rest ih =>
    unfold countKey at ih ⊢
    rw [List.map_cons, List.filter_cons, List.filter_cons, hf s]
    cases hm : matchesKey c s
    · simpa using ih
    · simpa using ih

/-- Helper: marking a row notified does not change key counts. -/
theorem countKey_markNotified (c c2 : Candidate) (now : ℤ)
    (l : List StoredAlert) :
    countKey c (markNotified now c2 l) = countKey c l := by
  apply countKey_map
  intro s
  by_cases h : (matchesKey c2 s && (s.timestamp == now)) = true
  · rw [if_pos h]
    rfl
  · rw [if_neg h]

/-- Helper: key counts add over appended stores. -/
theorem countKey_append (c : Candidate) (l1 l2 : List StoredAlert) :
    countKey c (l1 ++ l2) = countKey c l1 + countKey c l2 := by
  unfold countKey
  rw [List.filter_append, List.length_append]

/-- Helper: a zero key count means no row matches the key. -/
theorem not_match_of_countKey_zero (c : Candidate)
    (store : List StoredAlert) (h : countKey c store = 0) :
    ∀ s ∈ store, matchesKey c s = false := by
  unfold countKey at h
  rw [List.length_eq_zero] at h
  intro s hs
  by_contra hm
  have hmem : s ∈ store.filter (fun s => matchesKey c s) :=
    List.mem_filter.mpr ⟨hs, by simpa using hm⟩
  rw [h] at hmem
  cases hmem

/-- C1: starting from a store with no row of the candidate's key, issuing
the same (type, service, region) candidate twice within one hour (all
repository and notification calls succeeding) persists exactly one row:
the first pass stores and notifies, the second finds the active row inside
the window and discards the candidate, leaving the store untouched. -/
theorem dedup_within_hour (c : Candidate) (store0 : List StoredAlert)
    (t1 t2 : ℤ) (h0 : countKey c store0 = 0) (hwin : t2 - t1 < 3600) :
    (processOne t1 c ⟨true, true, true⟩ store0).2 = true ∧
    countKey c (processOne t1 c ⟨true, true, true⟩ store0).1 = 1 ∧
    processOne t2 c ⟨true, true, true⟩
        (processOne t1 c ⟨true, true, true⟩ store0).1 =
      ((processOne t1 c ⟨true, true, true⟩ store0).1, false) ∧
    countKey c (processOne t2 c ⟨true, true, true⟩
        (processOne t1 c ⟨true, true, true⟩ store0).1).1 = 1 := by
  have hnotdup1 : is_duplicate_alert t1 c true store0 = false := by
    unfold is_duplicate_alert
    rw [if_pos rfl]
    cases ha : store0.any (fun s => matchesKey c s &&
        decide (t1 - 3600 < s.timestamp) && (s.status == "active"))
    · rfl
    · exfalso
      obtain ⟨s, hs, hp⟩ := List.any_eq_true.mp ha
      simp only [Bool.and_eq_true] at hp
      have := not_match_of_countKey_zero c store0 h0 s hs
      rw [hp.1.1] at this
      cases this
  have hr1 : processOne t1 c ⟨true, true, true⟩ store0 =
      (markNotified t1 c (store0 ++ [mkStoredAlert t1 c]), true) := by
    simp [processOne, hnotdup1]
  have hcount1 :
      countKey c (markNotified t1 c (store0 ++ [mkStoredAlert t1 c])) = 1 := by
    rw [countKey_markNotified, countKey_append, h0]
    unfold countKey
    simp [matchesKey, mkStoredAlert]
  have hdup2 : is_duplicate_alert t2 c true
      (markNotified t1 c (store0 ++ [mkStoredAlert t1 c])) = true := by
    unfold is_duplicate_alert
    rw [if_pos rfl]
    apply List.any_eq_true.mpr
    refine ⟨{ mkStoredAlert t1 c with notificationSent := true }, ?_, ?_⟩
    · unfold markNotified
      rw [List.map_append]
      apply List.mem_append_right
      simp [mkStoredAlert, matchesKey]
    · have hts : t2 - 3600 < t1 := by omega
      simp [mkStoredAlert, matchesKey, hts]
  have hr2 : processOne t2 c ⟨true, true, true⟩
      (markNotified t1 c (store0 ++ [mkStoredAlert t1 c])) =
      (markNotified t1 c (store0 ++ [mkStoredAlert t1 c]), false) := by
    simp [processOne, hdup2]
  rw [hr1]
  exact ⟨rfl, hcount1, by rw [hr2], by rw [hr2]; exact hcount1⟩

/-- C1 witness: a concrete candidate issued at t=0 and again at t=1800
(half an hour later) over an empty store yields one persisted row. -/
theorem dedup_within_hour_witness :
    (processOne 0 ⟨"threshold_breach", "Overall", "All"⟩ ⟨true, true, true⟩
      []).2 = true ∧
    countKey ⟨"threshold_breach", "Overall", "All"⟩
      (processOne 0 ⟨"threshold_breach", "Overall", "All"⟩
        ⟨true, true, true⟩ []).1 = 1 ∧
    processOne 1800 ⟨"threshold_breach", "Overall", "All"⟩ ⟨true, true, true⟩
        (processOne 0 ⟨"threshold_breach", "Overall", "All"⟩
          ⟨true, true, true⟩ []).1 =
      ((processOne 0 ⟨"threshold_breach", "Overall", "All"⟩
        ⟨true, true, true⟩ []).1, false) ∧
    countKey ⟨"threshold_breach", "Overall", "All"⟩
      (processOne 1800 ⟨"threshold_breach", "Overall", "All"⟩
        ⟨true, true, true⟩
        (processOne 0 ⟨"threshold_breach", "Overall", "All"⟩
          ⟨true, true, true⟩ []).1).1 = 1 :=
  dedup_within_hour ⟨"threshold_breach", "Overall", "All"⟩ [] 0 1800
    rfl (by omega)

/-- Helper: a candidate whose persist step fails leaves the store unchanged
and is not counted. -/
theorem processOne_fail (now : ℤ) (c : Candidate) (o : RunOutcome)
    (store : List StoredAlert) (h : o.storeOk = false) :
    processOne now c o store = (store, false) := by
  unfold processOne
  by_cases hd : is_duplicate_alert now c o.queryOk store = true
  · simp [hd]
  · simp [hd, h]

/-- Helper: a processed step extends the store by exactly one row when the
count flag is set and leaves it unchanged otherwise. -/
theorem processOne_length (now : ℤ) (c : Candidate) (o : RunOutcome)
    (store : List StoredAlert) :
    (processOne now c o store).1.length =
      store.length + (if (processOne now c o store).2 then 1 else 0) := by
  unfold processOne
  cases hd : is_duplicate_alert now c o.queryOk store
  · cases hs : o.storeOk
    · simp [hd, hs]
    · cases hn : o.notifyOk
      · simp [hd, hs, hn]
      · simp [hd, hs, hn, markNotified]
  · simp [hd]

/-- C9: a failure persisting one alert does not prevent processing of the
remaining candidates — the failed candidate is a no-op and the run
continues exactly as without it — and the returned processed count is
precisely the number of rows persisted in the run. -/
theorem process_alerts_isolated (now : ℤ) :
    (∀ (c : Candidate) (o : RunOutcome)
       (rest : List (Candidate × RunOutcome)) (store : List StoredAlert),
      o.storeOk = false →
      process_alerts now ((c, o) :: rest) store =
        process_alerts now rest store) ∧
    (∀ (cands : List (Candidate × RunOutcome)) (store : List StoredAlert),
      (process_alerts now cands store).2 + store.length =
        (process_alerts now cands store).1.length) := by
  constructor
  · intro c o rest store h
    have hp := processOne_fail now c o store h
    simp only [process_alerts, hp]
    simp
  · intro cands
    induction cands with
    | nil =>
      intro store
      simp [process_alerts]
    | cons p rest ih =>
      intro store
      obtain ⟨c, o⟩ := p
      simp only [process_alerts]
      have h1 := processOne_length now c o store
      have h2 := ih (processOne now c o store).1
      by_cases hb : (processOne now c o store).2 = true
      · rw [hb] at h1 ⊢
        simp at h1 ⊢
        omega
      · have hb2 : (processOne now c o store).2 = false := by
          simpa using hb
        rw [hb2] at h1 ⊢
        simp at h1 ⊢
        omega

/-- C9 witness: with a first candidate whose persist fails and a second
that succeeds over an empty store, the run still processes the second
candidate, and the count (1) matches the rows persisted. -/
theorem process_alerts_isolated_witness :
    process_alerts 0
        [(⟨"threshold_breach", "Overall", "All"⟩, ⟨true, false, true⟩),
         (⟨"budget_warning", "Overall", "All"⟩, ⟨true, true, true⟩)] [] =
      process_alerts 0
        [(⟨"budget_warning", "Overall", "All"⟩, ⟨true, true, true⟩)] [] ∧
    (process_alerts 0
        [(⟨"threshold_breach", "Overall", "All"⟩, ⟨true, false, true⟩),
         (⟨"budget_warning", "Overall", "All"⟩, ⟨true, true, true⟩)]
        []).2 + ([] : List StoredAlert).length =
      (process_alerts 0
        [(⟨"threshold_breach", "Overall", "All"⟩, ⟨true, false, true⟩),
         (⟨"budget_warning", "Overall", "All"⟩, ⟨true, true, true⟩)]
        []).1.length :=
  ⟨(process_alerts_isolated 0).1 _ _ _ _ rfl,
   (process_alerts_isolated 0).2 _ _⟩

/-- C10: when the dedup scan fails, `is_duplicate_alert` answers
not-a-duplicate, so the candidate is persisted and notified even though a
matching active row inside the window already exists — the store ends with
at least two rows of the key. -/
theorem dedup_query_failure_duplicates (now : ℤ) (c : Candidate)
    (store : List StoredAlert) (s : StoredAlert) (hs : s ∈ store)
    (hmatch : matchesKey c s = true) (hts : now - 3600 < s.timestamp)
    (hstatus : s.status = "active") :
    is_duplicate_alert now c false store = false ∧
    is_duplicate_alert now c true store = true ∧
    2 ≤ countKey c (processOne now c ⟨false, true, true⟩ store).1 := by
  refine ⟨rfl, ?_, ?_⟩
  · unfold is_duplicate_alert
    rw [if_pos rfl]
    apply List.any_eq_true.mpr
    exact ⟨s, hs, by simp [hmatch, hts, hstatus]⟩
  · have hone : 1 ≤ countKey c store := by
      unfold countKey
      have : s ∈ store.filter (fun s => matchesKey c s) :=
        List.mem_filter.mpr ⟨hs, hmatch⟩
      exact List.length_pos.mpr (fun h => by rw [h] at this; cases this)
    have hr : processOne now c ⟨false, true, true⟩ store =
        (markNotified now c (store ++ [mkStoredAlert now c]), true) := by
      simp [processOne, is_duplicate_alert]
    rw [hr, countKey_markNotified, countKey_append]
    have : countKey c [mkStoredAlert now c] = 1 := by
      unfold countKey
      simp [matchesKey, mkStoredAlert]
    omega

/-- C10 witness: a store holding one matching active row from 100 seconds
ago, with a failing dedup scan, ends the run with two rows of the key. -/
theorem dedup_query_failure_duplicates_witness :
    is_duplicate_alert 100 ⟨"threshold_breach", "Overall", "All"⟩ false
      [⟨"threshold_breach", "Overall", "All", 0, "active", true⟩] = false ∧
    is_duplicate_alert 100 ⟨"threshold_breach", "Overall", "All"⟩ true
      [⟨"threshold_breach", "Overall", "All", 0, "active", true⟩] = true ∧
    2 ≤ countKey ⟨"threshold_breach", "Overall", "All"⟩
      (processOne 100 ⟨"threshold_breach", "Overall", "All"⟩
        ⟨false, true, true⟩
        [⟨"threshold_breach", "Overall", "All", 0, "active", true⟩]).1 :=
  dedup_query_failure_duplicates 100 ⟨"threshold_breach", "Overall", "All"⟩
    [⟨"threshold_breach", "Overall", "All", 0, "active", true⟩]
    ⟨"threshold_breach", "Overall", "All", 0, "active", true⟩
    (List.mem_singleton.mpr rfl) rfl (by decide) rfl

/-- C7 counterexample: the lifecycle operations are unguarded `update_item`
calls, so acknowledging a resolved alert moves it back to acknowledged —
the claimed one-directional state machine (no path out of resolved) is
false on the code. -/
theorem alert_lifecycle_counterexample :
    (applyOps freshAlertRec [AlertOp.res 10 (some "op") none]).status =
      "resolved" ∧
    (applyOps freshAlertRec
        [AlertOp.res 10 (some "op") none, AlertOp.ack 20 "op2"]).status =
      "acknowledged" :=
  ⟨rfl, rfl⟩

/-- C7 amended: acknowledge always sets status acknowledged and resolve
always sets status resolved, regardless of the current status; hence no
sequence of acknowledge/resolve operations ever returns an alert to
active, but the operations are unguarded, so a resolved alert can be taken
back to acknowledged by a later acknowledge. -/
theorem alert_lifecycle_transitions :
    (∀ (now : ℤ) (who : String) (a : AlertRec),
      (acknowledge_alert now who a).status = "acknowledged") ∧
    (∀ (now : ℤ) (who notes : Option String) (a : AlertRec),
      (resolve_alert now who notes a).status = "resolved") ∧
    (∀ (a : AlertRec) (ops : List AlertOp), ops ≠ [] →
      (applyOps a ops).status ≠ "active") := by
  have hres : ∀ (now : ℤ) (who notes : Option String) (a : AlertRec),
      (resolve_alert now who notes a).status = "resolved" := by
    intro now who notes a
    cases who <;> cases notes <;> rfl
  refine ⟨fun _ _ _ => rfl, hres, ?_⟩
  intro a ops
  induction ops generalizing a with
  | nil => intro h; exact absurd rfl h
  | cons op rest ih =>
    intro _
    by_cases hr : rest = []
    · subst hr
      cases op with
      | ack now who =>
        intro h
        rw [show applyOps a [AlertOp.ack now who] =
          acknowledge_alert now who a from rfl,
          show (acknowledge_alert now who a).status = "acknowledged"
            from rfl] at h
        exact absurd h (by decide)
      | res now who notes =>
        intro h
        rw [show applyOps a [AlertOp.res now who notes] =
          resolve_alert now who notes a from rfl, hres] at h
        exact absurd h (by decide)
    · exact ih (applyOp a op) hr

/-- C7 amended witness: acknowledging a fresh alert yields a status other
than active. -/
theorem alert_lifecycle_transitions_witness :
    (applyOps freshAlertRec [AlertOp.ack 0 "me"]).status ≠ "active" :=
  alert_lifecycle_transitions.2.2 freshAlertRec [AlertOp.ack 0 "me"]
    (by simp)

end CostDash
